import Mathlib

/-!
Verification of the session-and-streaming subsystem of the PydanticAI agent
gateway (`backend/main.py`, `backend/mcp_client.py`).

Python strings are modelled as lists of code points (`PyStr := List Char`):
Python `s.startswith(p)` is `p.isPrefixOf s`, `s[len(p):]` is
`s.drop p.length`, `x in s` is substring containment, and the truthiness of
a string is non-emptiness.  Machine-level concerns (byte encodings, I/O)
do not affect any of the modelled operations.
-/

/-- Model of a Python `str`: a sequence of code points. -/
abbrev PyStr := List Char

/-- Code points of a Lean string literal, used to write concrete Python
string values. -/
def pys (s : String) : PyStr := s.data

/-- Python substring containment `needle in hay` for strings. -/
def pyContainsSub (hay needle : PyStr) : Bool :=
  hay.tails.any (fun t => needle.isPrefixOf t)

/-- Python `s.lower()` (ASCII-sufficient for the scanned key names). -/
def pyLower (s : PyStr) : PyStr := s.map Char.toLower

/-- Python `sep.join(parts)`. -/
def pyJoin (sep : PyStr) : List PyStr → PyStr
  | [] => []
  | [x] => x
  | x :: y :: rest => x ++ sep ++ pyJoin sep (y :: rest)

/-!
## StreamReconciler — `backend/main.py` lines 326–366

Inside `websocket_endpoint`, the streaming loop keeps `previous_content`
(initially `""`) and computes for each incoming fragment `current_content`:

```
if not previous_content:            delta = current_content
elif current_content.startswith(previous_content):
                                    delta = current_content[len(previous_content):]
else:                               delta = current_content   (warning logged)
previous_content = current_content
if delta: send chunk event
```
-/

/-- Delta computation for one fragment, from `main.py` lines 343–353:
`if not previous_content` is the Python string-truthiness test
(`previous_content == ""`). -/
def delta_of (previous_content current_content : PyStr) : PyStr :=
  if previous_content = [] then current_content
  else if previous_content.isPrefixOf current_content then
    current_content.drop previous_content.length
  else current_content

/-- Whether the fragment is flagged as a non-cumulative anomaly
(the `else` branch at `main.py` line 350, which logs a warning). -/
def anomaly_of (previous_content current_content : PyStr) : Bool :=
  ¬ previous_content = [] ∧ ¬ previous_content.isPrefixOf current_content

/-- The emitted (non-empty) deltas for a fragment list, threading
`previous_content` exactly as the loop in `main.py` lines 330–366 does:
`previous_content` is set to the raw fragment, and a delta equal to `""`
is suppressed (`if delta:`). -/
def reconcile_aux (previous_content : PyStr) : List PyStr → List PyStr
  | [] => []
  | c :: rest =>
    let delta := delta_of previous_content c
    (if delta = [] then [] else [delta]) ++ reconcile_aux c rest

/-- Emitted deltas for one turn (`previous_content` starts empty). -/
def reconcile_deltas (frags : List PyStr) : List PyStr :=
  reconcile_aux [] frags

/-- Modelled from the spec's words (§4.5 / claim C1), for comparison with
the code's `reconcile_deltas`: for every later fragment F, if F starts with
`prev` the delta is F with the `prev` prefix removed, otherwise F verbatim. -/
def spec_delta (prev c : PyStr) : PyStr :=
  if prev.isPrefixOf c then c.drop prev.length else c

/-- Modelled from the spec's words: deltas of the fragments after the first. -/
def spec_reconcile_aux (prev : PyStr) : List PyStr → List PyStr
  | [] => []
  | c :: rest =>
    (if spec_delta prev c = [] then [] else [spec_delta prev c]) ++
      spec_reconcile_aux c rest

/-- Modelled from the spec's words: the first fragment's delta is the
fragment in full; empty deltas are not emitted. -/
def spec_reconcile : List PyStr → List PyStr
  | [] => []
  | c :: rest => (if c = [] then [] else [c]) ++ spec_reconcile_aux c rest

/-!
## ConversationMemory — `backend/main.py` lines 49–67

`session_chat_history` maps a session id to a list of message dicts; we
model one session's list.  `add_to_chat_history` appends
`{"role": role, "content": content, "timestamp": time.time()}` and then
keeps only the last `MAX_CHAT_HISTORY` entries (`lst[-MAX_CHAT_HISTORY:]`).
-/

/-- One stored chat turn (`main.py` lines 59–63). -/
structure ChatMsg where
  role : PyStr
  content : PyStr
  timestamp : Nat
deriving DecidableEq, Repr

/-- `MAX_CHAT_HISTORY` from `main.py` line 52. -/
def MAX_CHAT_HISTORY : Nat := 10

/-- `add_to_chat_history` from `main.py` lines 54–67, acting on one
session's stored list (the `m` argument bundles role, content and the
`time.time()` stamp).  `lst[-k:]` keeps the last `k` elements, i.e. drops
`len - k` from the front. -/
def add_to_chat_history (history : List ChatMsg) (m : ChatMsg) : List ChatMsg :=
  if MAX_CHAT_HISTORY < (history ++ [m]).length then
    (history ++ [m]).drop ((history ++ [m]).length - MAX_CHAT_HISTORY)
  else history ++ [m]

/-- The stored history after a sequence of appends to a fresh session. -/
def add_all (msgs : List ChatMsg) : List ChatMsg :=
  msgs.foldl add_to_chat_history []

/-!
## JSON values and Python dynamic-typing helpers

Used to embed the tool-service responses (`backend/mcp_client.py`) and the
citation scan over tool-result payloads (`backend/main.py` lines 393–442).
-/

/-- A JSON value as manipulated by the Python code (dicts keep insertion
order, which `List` preserves). -/
inductive Json where
  | str (s : PyStr)
  | int (n : Int)
  | bool (b : Bool)
  | null
  | arr (xs : List Json)
  | obj (fields : List (PyStr × Json))

/-- Python truthiness of a JSON value (`if x:`). -/
def Json.truthy : Json → Bool
  | .str s => !s.isEmpty
  | .int n => decide (n ≠ 0)
  | .bool b => b
  | .null => false
  | .arr xs => !xs.isEmpty
  | .obj fs => !fs.isEmpty

/-- Python `==` comparison of a JSON value against a string. -/
def Json.eqStr : Json → PyStr → Bool
  | .str s, t => s == t
  | _, _ => false

/-- Python `d.get(key)` on a dict (None for a missing key or non-dict). -/
def Json.get? : Json → PyStr → Option Json
  | .obj fs, key => (fs.find? (fun f => f.1 == key)).map (fun f => f.2)
  | _, _ => none

/-- Python `key in d` for a dict. -/
def Json.hasKey : Json → PyStr → Bool
  | .obj fs, key => fs.any (fun f => f.1 == key)
  | _, _ => false

/-- Python `x or y` where both operands are optional JSON values (`None`
and falsy values select the right operand). -/
def py_or (x y : Option Json) : Option Json :=
  match x with
  | some v => if v.truthy then some v else y
  | none => y

/-- Python truthiness of an optional JSON value. -/
def py_truthy_opt : Option Json → Bool
  | none => false
  | some v => v.truthy

/-- Python `f"{x}"` of a JSON value; container reprs are abstracted since
no modelled input renders one. -/
def Json.pyStr : Json → PyStr
  | .str s => s
  | .int n => pys (toString n)
  | .bool true => pys "True"
  | .bool false => pys "False"
  | .null => pys "None"
  | .arr _ => pys "<list>"
  | .obj _ => pys "<dict>"

/-- Python exceptions that the embedded fragments can raise. -/
inductive PyErr where
  | http_status (status : Nat)
  | json_decode
  | transport
  | type_error
  | key_error
deriving DecidableEq, Repr

/-- Python `key in x` as the dynamic operation (`in` on a dict tests keys,
on a list tests membership, on a str tests substring; on other values it
raises `TypeError`). -/
def py_in (key : PyStr) : Json → Except PyErr Bool
  | .obj fs => .ok (fs.any (fun f => f.1 == key))
  | .arr xs => .ok (xs.any (fun x => x.eqStr key))
  | .str s => .ok (pyContainsSub s key)
  | _ => .error .type_error

/-- Python `x[key]` with a string subscript (raises `KeyError` for a
missing dict key and `TypeError` on non-dicts). -/
def py_getitem : Json → PyStr → Except PyErr Json
  | .obj fs, key =>
    match fs.find? (fun f => f.1 == key) with
    | some f => .ok f.2
    | none => .error .key_error
  | _, _ => .error .type_error

/-- Python `len(x)` (raises `TypeError` on unsized values). -/
def py_len : Json → Except PyErr Nat
  | .arr xs => .ok xs.length
  | .obj fs => .ok fs.length
  | .str s => .ok s.length
  | _ => .error .type_error

/-!
## MCPClient — `backend/mcp_client.py`

State: `base_url`/`api_key` from settings, `client` (whether the httpx
client object is set) and `_initialized`.  The HTTP world is modelled by
the response each request would receive: a transport-level exception, or a
response with a status (for `raise_for_status`), a content-emptiness flag,
a content type, and an optional parsed JSON body (`None` when
`response.json()` would raise).
-/

/-- The mutable attributes of `MCPClient` (`mcp_client.py` lines 7–11). -/
structure MCPState where
  base_url : Option String
  api_key : Option String
  client : Bool
  initialized : Bool
deriving DecidableEq, Repr

/-- Python truthiness of `Optional[str]`. -/
def strOptTruthy : Option String → Bool
  | none => false
  | some s => s ≠ ""

/-- `MCPClient.__init__` (`mcp_client.py` lines 7–11). -/
def MCPClient.new (base_url api_key : Option String) : MCPState :=
  { base_url := base_url, api_key := api_key, client := false, initialized := false }

/-- The `initialize` method of `MCPClient` (`mcp_client.py` lines 13–28):
idempotent, and builds the client only when `base_url` is truthy. -/
def MCPClient.init (s : MCPState) : MCPState :=
  if s.initialized then s
  else if strOptTruthy s.base_url then { s with client := true, initialized := true }
  else s

/-- `MCPClient.close` (`mcp_client.py` lines 118–122): only flips
`_initialized` when a client object exists. -/
def MCPClient.close (s : MCPState) : MCPState :=
  if s.client then { s with initialized := false } else s

/-- `MCPClient.is_configured` (`mcp_client.py` lines 124–126). -/
def MCPClient.is_configured (s : MCPState) : Bool :=
  strOptTruthy s.base_url

/-- What one HTTP request observes of its response. -/
structure HttpResponse where
  status : Nat
  has_content : Bool
  content_type : PyStr
  json_body : Option Json

/-- Outcome of one outbound HTTP call. -/
inductive CallResult where
  | resp (r : HttpResponse)
  | transport_error

/-- The responses the tool service would give to the two discovery
requests. -/
structure ListToolsEnv where
  post_root : CallResult
  get_tools : CallResult

/-- Outbound requests, recorded so that "no network request" is provable. -/
inductive Req where
  | post_root
  | get_tools
  | post_tool_call (name : String)
deriving DecidableEq, Repr

/-- httpx `response.raise_for_status()`: raises for 4xx/5xx. -/
def raise_for_status (r : HttpResponse) : Except PyErr Unit :=
  if 400 ≤ r.status then .error (.http_status r.status) else .ok ()

/-- httpx `response.json()`: raises when the body does not parse. -/
def response_json (r : HttpResponse) : Except PyErr Json :=
  match r.json_body with
  | some j => .ok j
  | none => .error .json_decode

/-- Result extraction of `list_tools` (`mcp_client.py` lines 59–71),
including the `len(...)` calls inside the log lines, which can raise
`TypeError` on unsized values. -/
def extract_tools (result : Json) : Except PyErr Json := do
  let c ← py_in (pys "result") result
  if c then do
    let r ← py_getitem result (pys "result")
    match r with
    | .arr xs => do
        let _ ← py_len (.arr xs)
        pure (Json.arr xs)
    | .obj fs => do
        let ct ← py_in (pys "tools") (.obj fs)
        if ct then do
          let t ← py_getitem (.obj fs) (pys "tools")
          let _ ← py_len t
          pure t
        else pure (.arr [])
    | _ => pure (.arr [])
  else pure (.arr [])

/-- The body of the `try` block of `list_tools` (`mcp_client.py` lines
36–71): POST the JSON-RPC request to the root, `raise_for_status`, treat
an empty body or a non-JSON content type as "no tools", parse, extract. -/
def list_tools_body (env : ListToolsEnv) : Except PyErr Json :=
  match env.post_root with
  | .transport_error => .error .transport
  | .resp r =>
    match raise_for_status r with
    | .error e => .error e
    | .ok _ =>
      if !r.has_content then .ok (.arr [])
      else if !(pyContainsSub r.content_type (pys "application/json")) then .ok (.arr [])
      else
        match response_json r with
        | .error e => .error e
        | .ok result => extract_tools result

/-- The legacy fallback of `list_tools` (`mcp_client.py` lines 77–84):
`GET /tools`, `raise_for_status`, parse, `len` in the log line, return. -/
def list_tools_fallback (g : CallResult) : Except PyErr Json :=
  match g with
  | .transport_error => .error .transport
  | .resp r =>
    match raise_for_status r with
    | .error e => .error e
    | .ok _ =>
      match response_json r with
      | .error e => .error e
      | .ok t =>
        match py_len t with
        | .error e => .error e
        | .ok _ => .ok t

/-- `MCPClient.list_tools` (`mcp_client.py` lines 30–91) with its exception
handlers: the guard returns `[]` when `base_url` is falsy or the client is
not initialized (no request is made); an `HTTPStatusError` with code 405
triggers the legacy fallback, whose own failure is swallowed; every other
exception yields `[]`.  Alongside the result, the list of attempted
requests is returned. -/
def MCPClient.list_tools (s : MCPState) (env : ListToolsEnv) : Json × List Req :=
  if !(strOptTruthy s.base_url) || !s.initialized then (.arr [], [])
  else
    match list_tools_body env with
    | .ok tools => (tools, [.post_root])
    | .error (.http_status 405) =>
      (match list_tools_fallback env.get_tools with
       | .ok tools => (tools, [.post_root, .get_tools])
       | .error _ => (.arr [], [.post_root, .get_tools]))
    | .error _ => (.arr [], [.post_root])

/-- `MCPClient.call_tool` (`mcp_client.py` lines 93–116): the guard
returns `{"error": "MCP not configured"}` when `base_url` is falsy or the
client is not initialized; otherwise POST to the tool path and return the
parsed body, turning every exception into a structured error dict (the
interpolated exception text is abstracted to a fixed message). -/
def MCPClient.call_tool (s : MCPState) (name : String) (env : CallResult) :
    Json × List Req :=
  if !(strOptTruthy s.base_url) || !s.initialized then
    (.obj [(pys "error", .str (pys "MCP not configured"))], [])
  else
    match env with
    | .transport_error =>
      (.obj [(pys "error", .str (pys "Error calling MCP tool"))], [.post_tool_call name])
    | .resp r =>
      match raise_for_status r with
      | .error _ =>
        (.obj [(pys "error", .str (pys "MCP tool call failed"))], [.post_tool_call name])
      | .ok _ =>
        match response_json r with
        | .error _ =>
          (.obj [(pys "error", .str (pys "Error calling MCP tool"))], [.post_tool_call name])
        | .ok j => (j, [.post_tool_call name])

/-!
## SessionStore — `backend/main.py` lines 215–236 and 253–264

Sessions are stored in Redis under `session:<id>` via `setex` with a
TTL of 3600 seconds.  We model one entry together with Redis expiry:
`setex` at time `now` makes the key live until `now + ttl`.
-/

/-- The session JSON record (`main.py` lines 220–224). -/
structure SessionRecord where
  session_id : String
  created_at : Nat
  last_activity : Nat
deriving DecidableEq, Repr

/-- A stored value with its Redis expiry deadline. -/
structure StoreEntry where
  record : SessionRecord
  expires_at : Nat
deriving DecidableEq, Repr

/-- Redis `SETEX` at time `now`: full TTL from that moment. -/
def redis_setex (now ttl : Nat) (r : SessionRecord) : StoreEntry :=
  { record := r, expires_at := now + ttl }

/-- Redis `GET` at time `now`: the value while the key has not expired. -/
def redis_get (e : StoreEntry) (now : Nat) : Option SessionRecord :=
  if now < e.expires_at then some e.record else none

/-- The key a session is stored under (`f"session:{session_id}"`). -/
def session_key (sid : String) : String := "session:" ++ sid

/-- The write performed by `POST /auth/login` (`main.py` lines 219–230):
a fresh record with `created_at = last_activity = now`, TTL 3600. -/
def login_write (sid : String) (now : Nat) : String × StoreEntry :=
  (session_key sid,
   redis_setex now 3600 { session_id := sid, created_at := now, last_activity := now })

/-- The write performed by the WebSocket authentication step
(`main.py` lines 261–264): re-store the fetched record with
`last_activity = now` and a fresh TTL of 3600. -/
def ws_refresh_write (sid : String) (r : SessionRecord) (now : Nat) :
    String × StoreEntry :=
  (session_key sid, redis_setex now 3600 { r with last_activity := now })

/-!
## Citation extraction — `backend/main.py` lines 393–442

For each tool call's `response_data`, when it is a dict two passes run:
the known-source-field pass (lines 394–424) and the generic url/link key
pass (lines 431–442).  Every appended entry is the markdown line the code
builds; the aggregated `sources_list` keeps insertion order and
duplicates.
-/

/-- `source_fields` from `main.py` line 395. -/
def source_fields : List PyStr :=
  [pys "sources", pys "links", pys "references", pys "urls",
   pys "source", pys "link", pys "url"]

/-- `item.get('title', 'Documentation')`. -/
def get_title (item : Json) : Json :=
  (item.get? (pys "title")).getD (.str (pys "Documentation"))

/-- The markdown line `f"- [{title}]({url})"`. -/
def md_link (title url : Json) : PyStr :=
  pys "- [" ++ title.pyStr ++ pys "](" ++ url.pyStr ++ pys ")"

/-- Python `'http' in s or 'https' in s`. -/
def http_like (s : PyStr) : Bool :=
  pyContainsSub s (pys "http") || pyContainsSub s (pys "https")

/-- The dict-item case shared by both passes (`main.py` lines 404–410 and
438–442): a dict with a `url` or `link` key contributes a markdown link
when the chosen value is truthy. -/
def scan_dict_item (item : Json) : List PyStr :=
  if item.hasKey (pys "url") || item.hasKey (pys "link") then
    let url := py_or (item.get? (pys "url")) (item.get? (pys "link"))
    let title := get_title item
    if py_truthy_opt url then [md_link title (url.getD .null)] else []
  else []

/-- One item of a source-field list (`main.py` lines 403–415): dicts via
`scan_dict_item`; strings are appended as `f"- {item}"` whether or not the
`http` test succeeds (both the `elif` and the final `else` append the same
line); any other value falls into the `else` and is appended rendered. -/
def scan_item (item : Json) : List PyStr :=
  match item with
  | .obj fs => scan_dict_item (.obj fs)
  | .str s => if http_like s then [pys "- " ++ s] else [pys "- " ++ s]
  | other => [pys "- " ++ other.pyStr]

/-- The value of one recognized source field (`main.py` lines 402–424):
a list is scanned item-wise; a string is appended when it looks like a
URL; a dict contributes a single link (`get('url') or get('link') or
get('url')` as written); anything else is ignored. -/
def scan_field_data (field_data : Json) : List PyStr :=
  match field_data with
  | .arr items => items.flatMap scan_item
  | .str s => if http_like s then [pys "- " ++ s] else []
  | .obj fs =>
    let d := Json.obj fs
    let url := py_or (py_or (d.get? (pys "url")) (d.get? (pys "link"))) (d.get? (pys "url"))
    let title := get_title d
    if py_truthy_opt url then [md_link title (url.getD .null)] else []
  | _ => []

/-- The known-source-field pass (`main.py` lines 394–424), iterating
`source_fields` in order. -/
def first_scan (response_data : Json) : List PyStr :=
  source_fields.flatMap (fun field =>
    if response_data.hasKey field then
      scan_field_data ((response_data.get? field).getD .null)
    else [])

/-- The generic key pass (`main.py` lines 431–442): every dict entry whose
key name contains `url` or `link` contributes its value when it is a
URL-like string; every other entry whose value is a list is scanned for
dict items with a `url`/`link` key. -/
def second_scan (response_data : Json) : List PyStr :=
  match response_data with
  | .obj fs =>
    fs.flatMap (fun kv =>
      if pyContainsSub (pyLower kv.1) (pys "url") ||
         pyContainsSub (pyLower kv.1) (pys "link") then
        match kv.2 with
        | .str s => if http_like s then [pys "- " ++ s] else []
        | _ => []
      else
        match kv.2 with
        | .arr items =>
          items.flatMap (fun item =>
            match item with
            | .obj gs => scan_dict_item (.obj gs)
            | _ => [])
        | _ => [])
  | _ => []

/-- The citation lines extracted from one tool call's `response_data`
(`main.py` lines 393–442): both passes run only when the payload is a
dict, and their results concatenate in program order. -/
def extract_sources (response_data : Json) : List PyStr :=
  match response_data with
  | .obj fs => first_scan (.obj fs) ++ second_scan (.obj fs)
  | _ => []

/-!
## ConnectionSession — `backend/main.py` lines 282–478

The per-message loop.  Events are the JSON frames sent to the client.  A
turn either completes (the backend stream ends; the citation-extraction
`try` block either finishes with some `sources_list` or raises and is
swallowed) or raises, in which case the `except` at lines 472–478 counts
the provider error, sends one `error` event and the loop continues with
the next inbound message.
-/

/-- Server-to-client events of one connection. -/
inductive Event where
  | chunk (content : PyStr) (chunk_id : Nat) (response_id : Nat)
  | sources (content : PyStr) (chunk_id : Nat) (response_id : Nat)
  | done
  | error (message : PyStr)
deriving DecidableEq, Repr

/-- The loop state of the streaming loop (`main.py` lines 324–366). -/
structure StreamAcc where
  chunk_count : Nat
  previous_content : PyStr
  full_response : PyStr
  events : List Event

/-- One iteration of the streaming loop (`main.py` lines 330–366):
increment `chunk_count`, compute the delta, remember the raw fragment,
accumulate the full response, emit the chunk event unless the delta is
empty. -/
def stream_step (rid : Nat) (acc : StreamAcc) (current_content : PyStr) : StreamAcc :=
  { chunk_count := acc.chunk_count + 1
    previous_content := current_content
    full_response := acc.full_response ++ delta_of acc.previous_content current_content
    events := acc.events ++
      (if delta_of acc.previous_content current_content = [] then []
       else [.chunk (delta_of acc.previous_content current_content) (acc.chunk_count + 1) rid]) }

/-- The whole streaming loop over the backend's fragments. -/
def run_stream (rid : Nat) (frags : List PyStr) : StreamAcc :=
  frags.foldl (stream_step rid) ⟨0, [], [], []⟩

/-- Outcome of the citation-extraction `try` block (`main.py` lines
374–463): it either runs to the end having accumulated `sources_list`, or
raises somewhere inside and is caught at line 461. -/
inductive ExtractOutcome where
  | ok (sources_list : List PyStr)
  | raised
deriving DecidableEq, Repr

/-- `"\n\n**Sources:**\n" + "\n".join(sources_list)` (`main.py` line 445). -/
def render_sources_text (l : List PyStr) : PyStr :=
  pys "\n\n**Sources:**\n" ++ pyJoin (pys "\n") l

/-- The events of one completed turn (`main.py` lines 283–470): an empty
message short-circuits with a local error event; otherwise the stream's
chunk events, then one `sources` event iff extraction finished with a
non-empty list (`main.py` lines 444–453), then the unconditional `done`
(`main.py` line 466). -/
def turn_events (message : PyStr) (frags : List PyStr) (ex : ExtractOutcome)
    (rid : Nat) : List Event :=
  if message = [] then [.error (pys "Empty message")]
  else
    (run_stream rid frags).events ++
      (match ex with
       | .ok l =>
         if l = [] then []
         else [.sources (render_sources_text l) ((run_stream rid frags).chunk_count + 1) rid]
       | .raised => []) ++
      [.done]

/-- Connection-level state relevant to turn-failure isolation: the
provider-error counter (`AI_PROVIDER_ERRORS`, `main.py` line 473) and
whether the server has closed the connection. -/
structure ConnState where
  provider_errors : Nat
  closed : Bool
deriving DecidableEq, Repr

/-- How one inbound message's processing ends: the turn completes, or some
exception is raised after the events in `partial_events` were already
sent. -/
inductive TurnResult where
  | completed (frags : List PyStr) (ex : ExtractOutcome)
  | raised (partial_events : List Event)

/-- Processing of one inbound message (`main.py` lines 282–478): a
completed turn emits `turn_events` and leaves the state unchanged; a
raised turn is caught by the `except` at lines 472–478, which increments
the provider-error counter and sends one `error` event; neither branch
closes the connection. -/
def process_message (s : ConnState) (message : PyStr) (r : TurnResult) (rid : Nat) :
    ConnState × List Event :=
  match r with
  | .completed frags ex => (s, turn_events message frags ex rid)
  | .raised partial_events =>
    ({ s with provider_errors := s.provider_errors + 1 },
     partial_events ++ [.error (pys "Failed to process message")])

/-- The `async for` message loop (`main.py` line 282): each inbound
message is processed in turn, whatever the previous turns did. -/
def run_connection (s : ConnState) :
    List (PyStr × TurnResult × Nat) → ConnState × List Event
  | [] => (s, [])
  | (m, r, rid) :: rest =>
    let step := process_message s m r rid
    let restRun := run_connection step.1 rest
    (restRun.1, step.2 ++ restRun.2)

/-!
## Concrete instances used by the example-level theorems
-/

/-- A stored turn used in concrete histories. -/
def mk_msg (i : Nat) : ChatMsg :=
  { role := pys "user", content := pys "m", timestamp := i }

/-- Ten appended turns. -/
def msgs10 : List ChatMsg := (List.range 10).map mk_msg

/-- Eleven appended turns. -/
def msgs11 : List ChatMsg := (List.range 11).map mk_msg

/-- The spec's first citation example payload. -/
def payload_sources : Json :=
  .obj [(pys "sources",
         .arr [.obj [(pys "url", .str (pys "http://x")),
                     (pys "title", .str (pys "X"))]])]

/-- The spec's second citation example payload. -/
def payload_links : Json :=
  .obj [(pys "links", .arr [.str (pys "http://y")])]

/-- A payload with no matching fields. -/
def payload_plain : Json :=
  .obj [(pys "foo", .str (pys "bar"))]

/-- A tool descriptor as the tool service would return it. -/
def tool_search : Json :=
  .obj [(pys "name", .str (pys "microsoft_docs_search"))]

/-- A client constructed with a configured endpoint URL. -/
def st_mcp : MCPState := MCPClient.new (some "http://mcp") none

/-- A JSON-RPC response carrying one tool in `result`. -/
def resp_ok_tools : HttpResponse :=
  { status := 200
    has_content := true
    content_type := pys "application/json"
    json_body := some (.obj [(pys "result", .arr [tool_search])]) }

/-- An environment whose primary POST succeeds with one tool. -/
def env_ok : ListToolsEnv :=
  { post_root := .resp resp_ok_tools
    get_tools := .transport_error }

/-- A response placeholder for theorem components that ignore it. -/
def resp_dummy : HttpResponse :=
  { status := 200
    has_content := false
    content_type := pys ""
    json_body := none }
-- Helper lemmas for the reconciler and the history bound.

lemma nil_isPrefixOf_true (c : PyStr) : ([] : PyStr).isPrefixOf c = true := by
  cases c <;> rfl

lemma delta_of_eq_spec_delta (prev c : PyStr) : delta_of prev c = spec_delta prev c := by
  unfold delta_of spec_delta
  by_cases h : prev = []
  · subst h
    simp [nil_isPrefixOf_true]
  · simp [h]

lemma reconcile_aux_eq_spec_aux (l : List PyStr) :
    ∀ prev, reconcile_aux prev l = spec_reconcile_aux prev l := by
  induction l with
  | nil => intro prev; rfl
  | cons c rest ih =>
    intro prev
    simp only [reconcile_aux, spec_reconcile_aux, delta_of_eq_spec_delta, ih]

lemma spec_delta_nil (c : PyStr) : spec_delta [] c = c := by
  simp [spec_delta, nil_isPrefixOf_true]

lemma add_to_chat_history_eq (history : List ChatMsg) (m : ChatMsg) :
    add_to_chat_history history m =
      (history ++ [m]).drop (history.length + 1 - MAX_CHAT_HISTORY) := by
  unfold add_to_chat_history
  have hlen : (history ++ [m]).length = history.length + 1 := by simp
  rw [hlen]
  by_cases h : MAX_CHAT_HISTORY < history.length + 1
  · simp [h]
  · have h0 : history.length + 1 - MAX_CHAT_HISTORY = 0 := by omega
    simp [h, h0]

lemma add_all_eq (msgs : List ChatMsg) :
    add_all msgs = msgs.drop (msgs.length - MAX_CHAT_HISTORY) := by
  induction msgs using List.reverseRecOn with
  | nil => rfl
  | append_singleton l m ih =>
    have hfold : add_all (l ++ [m]) = add_to_chat_history (add_all l) m := by
      unfold add_all
      rw [List.foldl_append]
      rfl
    rw [hfold, ih, add_to_chat_history_eq]
    have hdlen : (l.drop (l.length - MAX_CHAT_HISTORY)).length =
        l.length - (l.length - MAX_CHAT_HISTORY) := by
      simp
    have hlen2 : (l ++ [m]).length = l.length + 1 := by simp
    rw [hlen2]
    simp only [MAX_CHAT_HISTORY] at hdlen ⊢
    by_cases hk : l.length < 10
    · have h0 : l.length - 10 = 0 := by omega
      simp [h0]
    · have h1 : (l.drop (l.length - 10)).length + 1 - 10 = 1 := by omega
      rw [h1]
      rw [List.drop_append_of_le_length
        (by omega : 1 ≤ (l.drop (l.length - 10)).length)]
      rw [List.drop_drop]
      have harith : l.length - 10 + 1 = l.length + 1 - 10 := by omega
      rw [harith]
      rw [List.drop_append_of_le_length
        (by omega : l.length + 1 - 10 ≤ l.length)]

lemma done_not_mem_foldl_stream (rid : Nat) (frags : List PyStr) :
    ∀ acc : StreamAcc, Event.done ∉ acc.events →
      Event.done ∉ (frags.foldl (stream_step rid) acc).events := by
  induction frags with
  | nil => intro acc h; exact h
  | cons f rest ih =>
    intro acc h
    apply ih
    intro hmem
    simp only [stream_step] at hmem
    rcases List.mem_append.mp hmem with h1 | h2
    · exact h h1
    · by_cases hd : delta_of acc.previous_content f = []
      · rw [if_pos hd] at h2
        cases h2
      · rw [if_neg hd] at h2
        rcases List.mem_singleton.mp h2 with h3
        cases h3

lemma done_not_mem_run_stream (rid : Nat) (frags : List PyStr) :
    Event.done ∉ (run_stream rid frags).events := by
  apply done_not_mem_foldl_stream
  intro h
  cases h

lemma process_message_closed (s : ConnState) (m : PyStr) (r : TurnResult) (rid : Nat) :
    (process_message s m r rid).1.closed = s.closed := by
  cases r <;> rfl

lemma run_connection_closed (turns : List (PyStr × TurnResult × Nat)) :
    ∀ s : ConnState, (run_connection s turns).1.closed = s.closed := by
  induction turns with
  | nil => intro s; rfl
  | cons t rest ih =>
    intro s
    obtain ⟨m, r, rid⟩ := t
    show (run_connection (process_message s m r rid).1 rest).1.closed = s.closed
    rw [ih, process_message_closed]

/-!
## The claims
-/

/-- C1: for every turn the stream reconciler computes each delta from the
fragment sequence with `prev` initialized empty — first fragment in full,
later fragments stripped of the `prev` prefix when cumulative and taken
verbatim otherwise, `prev` then set to the raw fragment, empty deltas not
emitted; in particular `["Hi", "Hi there", "Hi there!"]` yields deltas
`["Hi", " there", "!"]` and `["Hi", "Hi"]` yields exactly one non-empty
delta. -/
theorem stream_reconciler_matches_spec :
    (∀ frags : List PyStr, reconcile_deltas frags = spec_reconcile frags) ∧
    reconcile_deltas [pys "Hi", pys "Hi there", pys "Hi there!"] =
      [pys "Hi", pys " there", pys "!"] ∧
    reconcile_deltas [pys "Hi", pys "Hi"] = [pys "Hi"] := by
  refine ⟨?_, by decide, by decide⟩
  intro frags
  cases frags with
  | nil => rfl
  | cons c rest =>
    show reconcile_aux [] (c :: rest) = spec_reconcile (c :: rest)
    simp only [reconcile_aux, spec_reconcile, delta_of, if_pos,
      reconcile_aux_eq_spec_aux]

/-- C2: the conversation memory holds at most 10 turns, and after any
sequence of 11 or more appends exactly the last 10 appended turns are
retained, in append order. -/
theorem conversation_memory_bounded_fifo (msgs : List ChatMsg) :
    (add_all msgs).length ≤ MAX_CHAT_HISTORY ∧
    (11 ≤ msgs.length →
      add_all msgs = msgs.drop (msgs.length - MAX_CHAT_HISTORY)) := by
  constructor
  · rw [add_all_eq]
    simp only [List.length_drop, MAX_CHAT_HISTORY]
    omega
  · intro _
    exact add_all_eq msgs

/-- C2 witness: eleven appends retain exactly the last ten turns. -/
theorem conversation_memory_bounded_fifo_witness :
    11 ≤ msgs11.length ∧
    add_all msgs11 = msgs11.drop (msgs11.length - MAX_CHAT_HISTORY) :=
  ⟨by decide, (conversation_memory_bounded_fifo msgs11).2 (by decide)⟩

/-- C9 counterexample: appending an 11th turn removes the oldest stored
turn, so `add_to_chat_history` does not leave previously stored turns
intact — storage itself is truncated. -/
theorem append_removes_oldest_counterexample :
    mk_msg 0 ∈ add_all msgs10 ∧
    mk_msg 0 ∉ add_to_chat_history (add_all msgs10) (mk_msg 10) := by
  decide

/-- C9 amended: appending a turn appends it at the end and evicts exactly
the oldest stored turns beyond the 10-turn bound (nothing while the bound
is not exceeded); the retained turns are unaltered and keep their order —
but the bounding applies to storage itself, not merely to the rendered
context. -/
theorem append_keeps_bounded_suffix (history : List ChatMsg) (m : ChatMsg) :
    add_to_chat_history history m =
      (history ++ [m]).drop (history.length + 1 - MAX_CHAT_HISTORY) :=
  add_to_chat_history_eq history m

/-- C7: both session-record writes store the record under `session:<id>`
with fields session_id, created_at and last_activity and a TTL of exactly
3600 seconds from the moment of the write; the websocket refresh rewrites
the fetched record with `last_activity = now` and the full TTL measured
from `now`, independently of when the record was created (sliding, not
fixed-origin expiry). -/
theorem session_writes_full_ttl (sid : String) (r : SessionRecord) (now t : Nat) :
    (login_write sid now).1 = "session:" ++ sid ∧
    (login_write sid now).2 =
      redis_setex now 3600 { session_id := sid, created_at := now, last_activity := now } ∧
    (login_write sid now).2.expires_at = now + 3600 ∧
    (ws_refresh_write sid r now).1 = "session:" ++ sid ∧
    (ws_refresh_write sid r now).2.record =
      { session_id := r.session_id, created_at := r.created_at, last_activity := now } ∧
    (ws_refresh_write sid r now).2.expires_at = now + 3600 ∧
    redis_get (ws_refresh_write sid r now).2 t =
      (if t < now + 3600 then some { r with last_activity := now } else none) :=
  ⟨rfl, rfl, rfl, rfl, rfl, rfl, rfl⟩

/-- C3: for every chat turn whose backend stream runs to completion the
session emits exactly one terminal `done` event, regardless of how many
deltas were emitted (including zero) and of whether citation extraction
finished with citations, finished empty, or raised and was swallowed. -/
theorem turn_emits_exactly_one_done (message : PyStr) (frags : List PyStr)
    (ex : ExtractOutcome) (rid : Nat) (h : message ≠ []) :
    ∃ pre, turn_events message frags ex rid = pre ++ [Event.done] ∧
      Event.done ∉ pre := by
  unfold turn_events
  rw [if_neg h]
  refine ⟨_, rfl, ?_⟩
  intro hmem
  rcases List.mem_append.mp hmem with h1 | h2
  · exact done_not_mem_run_stream rid frags h1
  · cases ex with
    | ok l =>
      dsimp only at h2
      by_cases hl : l = []
      · rw [if_pos hl] at h2
        cases h2
      · rw [if_neg hl] at h2
        rcases List.mem_singleton.mp h2 with h3
        cases h3
    | raised =>
      dsimp only at h2
      cases h2

/-- C3 witness: a one-fragment turn with empty extraction emits one
terminal done event. -/
theorem turn_emits_exactly_one_done_witness :
    ∃ pre, turn_events (pys "Hello") [pys "Hi"] (.ok []) 0 =
      pre ++ [Event.done] ∧ Event.done ∉ pre :=
  turn_emits_exactly_one_done (pys "Hello") [pys "Hi"] (.ok []) 0 (by decide)

/-- C4: an exception while processing one chat turn increments the
provider-error counter, sends exactly one trailing `error` event, leaves
the connection open, and the loop keeps processing the remaining inbound
messages; no sequence of turn outcomes ever closes the connection. -/
theorem turn_failure_isolated (s : ConnState) (message : PyStr)
    (p : List Event) (rid : Nat) (rest : List (PyStr × TurnResult × Nat)) :
    (process_message s message (.raised p) rid).1.provider_errors =
      s.provider_errors + 1 ∧
    (process_message s message (.raised p) rid).1.closed = s.closed ∧
    (process_message s message (.raised p) rid).2 =
      p ++ [Event.error (pys "Failed to process message")] ∧
    run_connection s ((message, .raised p, rid) :: rest) =
      ((run_connection (process_message s message (.raised p) rid).1 rest).1,
       (process_message s message (.raised p) rid).2 ++
         (run_connection (process_message s message (.raised p) rid).1 rest).2) ∧
    (∀ turns : List (PyStr × TurnResult × Nat),
      (run_connection s turns).1.closed = s.closed) :=
  ⟨rfl, rfl, rfl, rfl, fun turns => run_connection_closed turns s⟩

/-- C10: before `initialize()` has completed, `list_tools` returns the
empty list and `call_tool` returns `{"error": "MCP not configured"}`,
without performing any network request, even when an endpoint URL is
configured. -/
theorem uninitialized_client_short_circuits (s : MCPState) (env : ListToolsEnv)
    (cenv : CallResult) (name : String) (h : s.initialized = false) :
    MCPClient.list_tools s env = (.arr [], []) ∧
    MCPClient.call_tool s name cenv =
      (.obj [(pys "error", .str (pys "MCP not configured"))], []) := by
  unfold MCPClient.list_tools MCPClient.call_tool
  rw [h]
  simp

/-- C10 witness: a freshly constructed client with a configured URL makes
no request. -/
theorem uninitialized_client_short_circuits_witness :
    MCPClient.list_tools st_mcp env_ok = (.arr [], []) ∧
    MCPClient.call_tool st_mcp "search" .transport_error =
      (.obj [(pys "error", .str (pys "MCP not configured"))], []) :=
  uninitialized_client_short_circuits st_mcp env_ok .transport_error "search" rfl

/-- C8 counterexample: after `close()` a later `list_tools` call does not
re-initialize — it returns the empty list and makes no request, while the
same client before `close()` returns the discovered tool; the closed
client does not behave like one that was never closed. -/
theorem closed_client_counterexample :
    MCPClient.list_tools (MCPClient.close (MCPClient.init st_mcp)) env_ok =
      (.arr [], []) ∧
    MCPClient.list_tools (MCPClient.init st_mcp) env_ok =
      (.arr [tool_search], [.post_root]) ∧
    MCPClient.list_tools (MCPClient.close (MCPClient.init st_mcp)) env_ok ≠
      MCPClient.list_tools (MCPClient.init st_mcp) env_ok := by
  refine ⟨rfl, rfl, ?_⟩
  intro hcontra
  have h2 := congrArg Prod.snd hcontra
  simp only at h2
  cases h2

/-- C8 amended: `close()` on a client whose connection exists flips it to
not-initialized, and later calls do not re-initialize: they short-circuit,
tool discovery returning the empty list and tool invocation the
`MCP not configured` error, with no network request — the closed client
behaves like one that was never initialized, not like one never closed. -/
theorem close_disables_client (s : MCPState) (env : ListToolsEnv)
    (cenv : CallResult) (name : String) (h : s.client = true) :
    (MCPClient.close s).initialized = false ∧
    MCPClient.list_tools (MCPClient.close s) env = (.arr [], []) ∧
    MCPClient.call_tool (MCPClient.close s) name cenv =
      (.obj [(pys "error", .str (pys "MCP not configured"))], []) := by
  have hc : MCPClient.close s = { s with initialized := false } := by
    unfold MCPClient.close
    rw [h]
    simp
  rw [hc]
  refine ⟨rfl, ?_, ?_⟩
  · unfold MCPClient.list_tools
    simp
  · unfold MCPClient.call_tool
    simp

/-- C8 amended witness: closing an initialized client disables it. -/
theorem close_disables_client_witness :
    (MCPClient.close (MCPClient.init st_mcp)).initialized = false ∧
    MCPClient.list_tools (MCPClient.close (MCPClient.init st_mcp)) env_ok =
      (.arr [], []) ∧
    MCPClient.call_tool (MCPClient.close (MCPClient.init st_mcp)) "search"
      .transport_error =
      (.obj [(pys "error", .str (pys "MCP not configured"))], []) :=
  close_disables_client (MCPClient.init st_mcp) env_ok .transport_error
    "search" rfl

/-- C6 counterexample: the payload `{"sources": [{"url": "http://x",
"title": "X"}]}` yields the citation line for (X, http://x) twice — once
from the known-source-field pass and once from the generic url/link key
pass — not exactly once as claimed. -/
theorem citation_duplicate_counterexample :
    extract_sources payload_sources =
      [pys "- [X](http://x)", pys "- [X](http://x)"] ∧
    (extract_sources payload_sources).length ≠ 1 := by
  constructor
  · decide
  · decide

/-- C6 amended: citation extraction never raises and aggregates in
insertion order with duplicates allowed; `{"sources": [{"url": "http://x",
"title": "X"}]}` yields the citation (title "X", url "http://x") twice,
`{"links": ["http://y"]}` yields exactly one citation with url "http://y"
and no title, and a payload with no matching fields yields the empty
citation list. -/
theorem citation_extraction_examples :
    extract_sources payload_links = [pys "- http://y"] ∧
    extract_sources payload_plain = [] ∧
    extract_sources payload_sources =
      pys "- [X](http://x)" :: [pys "- [X](http://x)"] := by
  refine ⟨by decide, by decide, by decide⟩

lemma mcp_guard_false {s : MCPState} (hurl : strOptTruthy s.base_url = true)
    (hinit : s.initialized = true) :
    (!(strOptTruthy s.base_url) || !s.initialized) = false := by
  rw [hurl, hinit]
  rfl

lemma list_tools_of_body_ok {s : MCPState} {env : ListToolsEnv} {t : Json}
    (hurl : strOptTruthy s.base_url = true) (hinit : s.initialized = true)
    (h : list_tools_body env = .ok t) :
    MCPClient.list_tools s env = (t, [.post_root]) := by
  unfold MCPClient.list_tools
  rw [mcp_guard_false hurl hinit]
  rw [if_neg (by simp : ¬ (false = true))]
  rw [h]

lemma list_tools_of_body_405 {s : MCPState} {env : ListToolsEnv}
    (hurl : strOptTruthy s.base_url = true) (hinit : s.initialized = true)
    (h : list_tools_body env = .error (.http_status 405)) :
    MCPClient.list_tools s env =
      (match list_tools_fallback env.get_tools with
       | .ok tools => (tools, [.post_root, .get_tools])
       | .error _ => (.arr [], [.post_root, .get_tools])) := by
  unfold MCPClient.list_tools
  rw [mcp_guard_false hurl hinit]
  rw [if_neg (by simp : ¬ (false = true))]
  rw [h]

lemma list_tools_of_body_error {s : MCPState} {env : ListToolsEnv} {e : PyErr}
    (hurl : strOptTruthy s.base_url = true) (hinit : s.initialized = true)
    (h : list_tools_body env = .error e) (hne : e ≠ .http_status 405) :
    MCPClient.list_tools s env = (.arr [], [.post_root]) := by
  unfold MCPClient.list_tools
  rw [mcp_guard_false hurl hinit]
  rw [if_neg (by simp : ¬ (false = true))]
  rw [h]
  split
  · rename_i tools heq
    exact Except.noConfusion heq
  · rename_i heq
    injection heq with h1
    exact absurd h1 hne
  · rfl

lemma raise_for_status_lt {r : HttpResponse} (h : r.status < 400) :
    raise_for_status r = .ok () := by
  unfold raise_for_status
  rw [if_neg (by omega)]

lemma list_tools_body_405 {r : HttpResponse} {g : CallResult} (h : r.status = 405) :
    list_tools_body ⟨.resp r, g⟩ = .error (.http_status 405) := by
  unfold list_tools_body raise_for_status
  dsimp only
  rw [h]
  rfl

lemma list_tools_body_empty {r : HttpResponse} {g : CallResult}
    (h400 : r.status < 400) (hc : r.has_content = false) :
    list_tools_body ⟨.resp r, g⟩ = .ok (.arr []) := by
  unfold list_tools_body
  dsimp only
  rw [raise_for_status_lt h400]
  rw [hc]
  rfl

lemma list_tools_body_nonjson {r : HttpResponse} {g : CallResult}
    (h400 : r.status < 400) (hc : r.has_content = true)
    (hct : pyContainsSub r.content_type (pys "application/json") = false) :
    list_tools_body ⟨.resp r, g⟩ = .ok (.arr []) := by
  unfold list_tools_body
  dsimp only
  rw [raise_for_status_lt h400]
  rw [hc, hct]
  rfl

/-- C5: tool discovery never raises: with a configured, initialized
client, an HTTP 405 on the primary structured POST triggers the legacy
`GET /tools` fallback, whose successfully parsed body is returned and
whose own failure yields the empty list; an empty body or a non-JSON
content type yields the empty list (not an error); and any transport
failure or any other failure of the primary call also yields the empty
list. -/
theorem list_tools_degrades_to_empty (s : MCPState) (env : ListToolsEnv)
    (r : HttpResponse) (g : CallResult)
    (hurl : strOptTruthy s.base_url = true) (hinit : s.initialized = true) :
    (r.status = 405 →
      (MCPClient.list_tools s ⟨.resp r, g⟩).2 = [.post_root, .get_tools] ∧
      (∀ t, list_tools_fallback g = .ok t →
        (MCPClient.list_tools s ⟨.resp r, g⟩).1 = t) ∧
      (∀ e, list_tools_fallback g = .error e →
        (MCPClient.list_tools s ⟨.resp r, g⟩).1 = .arr [])) ∧
    (r.status < 400 → r.has_content = false →
      MCPClient.list_tools s ⟨.resp r, g⟩ = (.arr [], [.post_root])) ∧
    (r.status < 400 → r.has_content = true →
      pyContainsSub r.content_type (pys "application/json") = false →
      MCPClient.list_tools s ⟨.resp r, g⟩ = (.arr [], [.post_root])) ∧
    MCPClient.list_tools s ⟨.transport_error, g⟩ = (.arr [], [.post_root]) ∧
    (∀ e, list_tools_body env = .error e → e ≠ .http_status 405 →
      MCPClient.list_tools s env = (.arr [], [.post_root])) := by
  refine ⟨?_, ?_, ?_, ?_, ?_⟩
  · intro h405
    have hm := list_tools_of_body_405 hurl hinit (list_tools_body_405 (g := g) h405)
    dsimp only at hm
    refine ⟨?_, ?_, ?_⟩
    · rw [hm]
      cases hfb : list_tools_fallback g with
      | ok t => rfl
      | error e => rfl
    · intro t hfb
      rw [hm, hfb]
    · intro e hfb
      rw [hm, hfb]
  · intro h400 hc
    exact list_tools_of_body_ok hurl hinit (list_tools_body_empty h400 hc)
  · intro h400 hc hct
    exact list_tools_of_body_ok hurl hinit (list_tools_body_nonjson h400 hc hct)
  · exact list_tools_of_body_error hurl hinit rfl
      (fun hx => PyErr.noConfusion hx)
  · intro e hb hne
    exact list_tools_of_body_error hurl hinit hb hne

/-- C5 witness: a transport failure of the primary POST on an initialized
configured client yields the empty tool list. -/
theorem list_tools_degrades_to_empty_witness :
    MCPClient.list_tools (MCPClient.init st_mcp)
      ⟨.transport_error, .transport_error⟩ = (.arr [], [.post_root]) :=
  (list_tools_degrades_to_empty (MCPClient.init st_mcp)
    ⟨.transport_error, .transport_error⟩ resp_dummy .transport_error
    (by decide) rfl).2.2.2.1
